import Mathlib

/-!
# Step Forge Docs: the site configuration module

A shallow embedding of `astro.config.mjs`.  The module consists of three import
declarations and one default export, an expression built from string literals,
array literals, object literals and calls of imported identifiers.  The embedding keeps
that expression as a value of `Expr`, in source order, and the statements below read it
through the property, element and call accessors only.
-/

namespace AstroConfig

/-- Expressions occurring in the module: string literals, array literals, object
literals (properties in source order) and calls of an identifier. -/
inductive Expr where
  | str (value : String)
  | arr (elements : List Expr)
  | obj (properties : List (String × Expr))
  | call (callee : String) (arguments : List Expr)

/-- An import declaration: the default binding (if any), the named bindings and the
module specifier. -/
structure ImportDecl where
  defaultBinding : Option String
  namedBindings : List String
  source : String
deriving DecidableEq, Repr

namespace Expr

/-- The text of a string literal. -/
def asString : Expr → Option String
  | .str v => some v
  | _ => none

/-- The elements of an array literal, in order. -/
def elems : Expr → Option (List Expr)
  | .arr es => some es
  | _ => none

/-- The properties of an object literal, in source order. -/
def entries : Expr → Option (List (String × Expr))
  | .obj ps => some ps
  | _ => none

/-- The property names of an object literal, in source order. -/
def keys (e : Expr) : Option (List String) :=
  e.entries.map (fun ps => ps.map Prod.fst)

/-- Property access `e.k` on an object literal: the value of the last property named `k`
(a later duplicate key overrides an earlier one), `none` when there is no such property. -/
def prop (k : String) (e : Expr) : Option Expr :=
  e.entries.bind (fun ps => ps.reverse.lookup k)

/-- String-valued property access. -/
def strProp (k : String) (e : Expr) : Option String :=
  (e.prop k).bind asString

/-- The identifier called by a call expression. -/
def calleeName : Expr → Option String
  | .call f _ => some f
  | _ => none

/-- The arguments of a call expression, in order. -/
def args : Expr → Option (List Expr)
  | .call _ as => some as
  | _ => none

end Expr

/-- The import declarations of the module, in source order. -/
def imports : List ImportDecl :=
  [ { defaultBinding := none, namedBindings := ["defineConfig"], source := "astro/config" },
    { defaultBinding := some "starlight", namedBindings := [], source := "@astrojs/starlight" },
    { defaultBinding := some "tailwindcss", namedBindings := [], source := "@tailwindcss/vite" } ]

/-- The expression after `export default`. -/
def defaultExport : Expr :=
  .call "defineConfig" [
    .obj [
      ("vite", .obj [
        ("plugins", .arr [
          .call "tailwindcss" []
        ])
      ]),
      ("integrations", .arr [
        .call "starlight" [
          .obj [
            ("title", .str "Step Forge Docs"),
            ("social", .obj [
              ("github", .str "https://github.com/ellisande/step-forge")
            ]),
            ("sidebar", .arr [
              .obj [
                ("label", .str "Guides"),
                ("items", .arr [
                  .obj [("label", .str "Installing Step Forge"), ("slug", .str "guides/installing")],
                  .obj [("label", .str "Setting Up Cucumber"), ("slug", .str "guides/setting-up-cucumber")],
                  .obj [("label", .str "Write a Feature"), ("slug", .str "guides/write-a-feature")],
                  .obj [("label", .str "Define Steps"), ("slug", .str "guides/define-steps")]
                ])
              ],
              .obj [
                ("label", .str "Concepts"),
                ("autogenerate", .obj [("directory", .str "concepts")])
              ],
              .obj [
                ("label", .str "Reference"),
                ("autogenerate", .obj [("directory", .str "reference")])
              ],
              .obj [
                ("label", .str "VS Code Extension"),
                ("autogenerate", .obj [("directory", .str "vscode")])
              ]
            ])
          ]
        ]
      ])
    ]
  ]

/-- The single argument of a call expression, `none` unless there is exactly one. -/
def soleArg (e : Expr) : Option Expr :=
  match e.args with
  | some [a] => some a
  | _ => none

/-- The object handed to `defineConfig`. -/
def config : Option Expr := soleArg defaultExport

/-- The value of `vite.plugins` in the configuration object. -/
def vitePlugins : Option (List Expr) :=
  ((config.bind (Expr.prop "vite")).bind (Expr.prop "plugins")).bind Expr.elems

/-- The value of `integrations` in the configuration object. -/
def integrations : Option (List Expr) :=
  (config.bind (Expr.prop "integrations")).bind Expr.elems

/-- The options object handed to the first integration. -/
def starlightOptions : Option Expr :=
  (integrations.bind List.head?).bind soleArg

/-- The sections of the `sidebar` option, in order (empty when the option is absent). -/
def sidebar : List Expr :=
  ((starlightOptions.bind (Expr.prop "sidebar")).bind Expr.elems).getD []

/-- The `items` of a sidebar section, when it has an explicit list. -/
def sectionItems (s : Expr) : Option (List Expr) :=
  (s.prop "items").bind Expr.elems

/-- The `autogenerate.directory` of a sidebar section, when it has the directive. -/
def sectionDirectory (s : Expr) : Option String :=
  (s.prop "autogenerate").bind (Expr.strProp "directory")

/-- The labels of the sidebar sections, in order. -/
def sectionLabels : List (Option String) :=
  sidebar.map (Expr.strProp "label")

/-- The autogenerate directories named by the sidebar sections, in order. -/
def autogenDirectories : List String :=
  sidebar.filterMap sectionDirectory

/-- The first sidebar section. -/
def guides : Option Expr := sidebar.head?

/-- The items of the first sidebar section (empty when there are none). -/
def guidesItems : List Expr :=
  (guides.bind sectionItems).getD []

/-- The explicit content slugs of the first sidebar section, in order. -/
def guidesSlugs : List String :=
  guidesItems.filterMap (Expr.strProp "slug")

/-- The item labels of the first sidebar section, in order. -/
def guidesLabels : List String :=
  guidesItems.filterMap (Expr.strProp "label")

/-- A slug whose first character differs from that of a non-empty directory name is not
of the form `dir/rest`. -/
theorem slug_outside_directory (slug dir : String) (hd : dir ≠ "")
    (hc : slug.data.head? ≠ dir.data.head?) :
    ∀ rest : String, slug ≠ dir ++ "/" ++ rest := by
  intro rest heq
  apply hc
  subst heq
  obtain ⟨cs⟩ := dir
  cases cs with
  | nil => exact absurd rfl hd
  | cons c cs => simp [String.data_append]

/-- C1: there is exactly one sidebar section labelled Guides; its items property is the
array of the four label/slug objects Installing Step Forge, Setting Up Cucumber, Write a
Feature, Define Steps with slugs guides/installing, guides/setting-up-cucumber,
guides/write-a-feature, guides/define-steps, in that order, each object having only the
keys label and slug, and the section has no autogenerate property. -/
theorem guides_items_explicit_and_ordered :
    ∃ g : Expr,
      sidebar.filter (fun s => s.strProp "label" == some "Guides") = [g] ∧
      g.prop "items" = some (.arr [
        .obj [("label", .str "Installing Step Forge"), ("slug", .str "guides/installing")],
        .obj [("label", .str "Setting Up Cucumber"), ("slug", .str "guides/setting-up-cucumber")],
        .obj [("label", .str "Write a Feature"), ("slug", .str "guides/write-a-feature")],
        .obj [("label", .str "Define Steps"), ("slug", .str "guides/define-steps")]]) ∧
      g.prop "autogenerate" = none :=
  ⟨_, rfl, rfl, rfl⟩

/-- C2: every sidebar section has a non-empty label and exactly one content form:
either an items array whose every element has a string label and a string slug, with no
autogenerate property, or no items property and an autogenerate directive naming a
non-empty directory. -/
theorem sidebar_section_has_one_form (s : Expr) (hs : s ∈ sidebar) :
    (∃ l, s.strProp "label" = some l ∧ l ≠ "") ∧
    (((∃ items, sectionItems s = some items ∧
          ∀ i ∈ items, (∃ l, i.strProp "label" = some l) ∧ (∃ g, i.strProp "slug" = some g)) ∧
        s.prop "autogenerate" = none) ∨
      (s.prop "items" = none ∧ ∃ d, sectionDirectory s = some d ∧ d ≠ "")) := by
  change s ∈ [_, _, _, _] at hs
  simp only [List.mem_cons, List.mem_nil_iff, or_false] at hs
  rcases hs with rfl | rfl | rfl | rfl
  · refine ⟨⟨_, rfl, by decide⟩, Or.inl ⟨⟨_, rfl, ?_⟩, rfl⟩⟩
    intro i hi
    change i ∈ [_, _, _, _] at hi
    simp only [List.mem_cons, List.mem_nil_iff, or_false] at hi
    rcases hi with rfl | rfl | rfl | rfl <;> exact ⟨⟨_, rfl⟩, ⟨_, rfl⟩⟩
  · exact ⟨⟨_, rfl, by decide⟩, Or.inr ⟨rfl, _, rfl, by decide⟩⟩
  · exact ⟨⟨_, rfl, by decide⟩, Or.inr ⟨rfl, _, rfl, by decide⟩⟩
  · exact ⟨⟨_, rfl, by decide⟩, Or.inr ⟨rfl, _, rfl, by decide⟩⟩

/-- C2 witness: the Reference section is a sidebar section and has a non-empty label and
exactly one content form. -/
theorem sidebar_section_has_one_form_witness :
    Expr.obj [("label", .str "Reference"),
        ("autogenerate", .obj [("directory", .str "reference")])] ∈ sidebar ∧
    (∃ l, (Expr.obj [("label", .str "Reference"),
        ("autogenerate", .obj [("directory", .str "reference")])]).strProp "label" = some l ∧
      l ≠ "") :=
  have hmem : Expr.obj [("label", .str "Reference"),
      ("autogenerate", .obj [("directory", .str "reference")])] ∈ sidebar :=
    List.Mem.tail _ (List.Mem.tail _ (List.Mem.head _))
  ⟨hmem, (sidebar_section_has_one_form _ hmem).1⟩

/-- C3: the sidebar is the sequence of exactly four sections labelled Guides, Concepts,
Reference, VS Code Extension in that order; listing for each section its label, whether
it has an items property, whether it has an autogenerate property, and its autogenerate
directory shows that Guides alone is statically enumerated and that the other three are
auto-generated from concepts, reference and vscode respectively. -/
theorem sidebar_sections_in_order :
    sidebar.map (fun s => (s.strProp "label", (s.prop "items").isSome,
        (s.prop "autogenerate").isSome, sectionDirectory s)) =
      [ (some "Guides", true, false, none),
        (some "Concepts", false, true, some "concepts"),
        (some "Reference", false, true, some "reference"),
        (some "VS Code Extension", false, true, some "vscode") ] := by
  decide

/-- C4: the only integration is a call of starlight with one options object, whose title
is the string Step Forge Docs and whose social property is the object with the single
entry github mapped to the string https://github.com/ellisande/step-forge, a string
that begins with https://. -/
theorem starlight_site_metadata :
    ∃ theme opts : Expr,
      integrations = some [theme] ∧
      theme.calleeName = some "starlight" ∧
      theme.args = some [opts] ∧
      opts.prop "title" = some (.str "Step Forge Docs") ∧
      opts.prop "social" =
        some (.obj [("github", .str "https://github.com/ellisande/step-forge")]) ∧
      ∃ url rest : String,
        (opts.prop "social").bind (Expr.strProp "github") = some url ∧
        url = "https://" ++ rest :=
  ⟨_, _, rfl, rfl, rfl, rfl, rfl, _, "github.com/ellisande/step-forge", rfl, by decide⟩

/-- C5: the plugins property of vite is the array with exactly one element, the call of
tailwindcss with no arguments, where tailwindcss is the default import of the module
@tailwindcss/vite. -/
theorem vite_plugins_single_tailwindcss :
    vitePlugins = some [.call "tailwindcss" []] ∧
    imports.filter (fun d => d.defaultBinding == some "tailwindcss" ||
        d.namedBindings.contains "tailwindcss") =
      [{ defaultBinding := some "tailwindcss", namedBindings := [],
         source := "@tailwindcss/vite" }] :=
  ⟨rfl, by decide⟩

/-- C6: the default export is a call of defineConfig, imported by name from astro/config,
with exactly one argument, an object literal whose keys are exactly vite and
integrations; vite holds the plugins property; integrations is an array with exactly one
element, a call of starlight with exactly one argument, an object literal whose keys are
exactly title, social and sidebar. -/
theorem default_export_shape :
    defaultExport.calleeName = some "defineConfig" ∧
    imports.filter (fun d => d.defaultBinding == some "defineConfig" ||
        d.namedBindings.contains "defineConfig") =
      [{ defaultBinding := none, namedBindings := ["defineConfig"],
         source := "astro/config" }] ∧
    ∃ cfg theme opts : Expr,
      defaultExport.args = some [cfg] ∧
      cfg.keys = some ["vite", "integrations"] ∧
      (cfg.prop "vite").bind Expr.keys = some ["plugins"] ∧
      cfg.prop "integrations" = some (.arr [theme]) ∧
      theme.calleeName = some "starlight" ∧
      theme.args = some [opts] ∧
      opts.keys = some ["title", "social", "sidebar"] :=
  ⟨rfl, by decide, _, _, _, rfl, rfl, rfl, rfl, rfl, rfl, rfl⟩

/-- C7: the four section labels are pairwise distinct, the three autogenerate
directories are pairwise distinct, the four Guides item labels are pairwise distinct, the
four Guides slugs are pairwise distinct, and every Guides slug is guides/ followed by a
non-empty name and is not of the form dir/rest for any autogenerate directory dir. -/
theorem navigation_entries_unambiguous :
    (sectionLabels.length = 4 ∧ sectionLabels.Nodup) ∧
    (autogenDirectories.length = 3 ∧ autogenDirectories.Nodup) ∧
    (guidesLabels.length = 4 ∧ guidesLabels.Nodup) ∧
    (guidesSlugs.length = 4 ∧ guidesSlugs.Nodup) ∧
    ∀ slug ∈ guidesSlugs,
      (∃ name : String, name ≠ "" ∧ slug = "guides/" ++ name) ∧
      ∀ dir ∈ autogenDirectories, ∀ rest : String, slug ≠ dir ++ "/" ++ rest := by
  refine ⟨by decide, by decide, by decide, by decide, ?_⟩
  intro slug hslug
  have hdirs : ∀ dir ∈ autogenDirectories, dir ≠ "" ∧ dir.data.head? ≠ some 'g' := by
    decide
  have hhead : slug.data.head? = some 'g' := by
    revert slug
    decide
  refine ⟨?_, fun dir hdir => slug_outside_directory slug dir (hdirs dir hdir).1
    (by rw [hhead]; exact fun h => (hdirs dir hdir).2 h.symm)⟩
  change slug ∈ [_, _, _, _] at hslug
  simp only [List.mem_cons, List.mem_nil_iff, or_false] at hslug
  rcases hslug with rfl | rfl | rfl | rfl
  · exact ⟨"installing", by decide, by decide⟩
  · exact ⟨"setting-up-cucumber", by decide, by decide⟩
  · exact ⟨"write-a-feature", by decide, by decide⟩
  · exact ⟨"define-steps", by decide, by decide⟩

/-- C7 witness: the slug guides/define-steps is a Guides slug, has the form guides/name
and lies outside the concepts directory. -/
theorem navigation_entries_unambiguous_witness :
    "guides/define-steps" ∈ guidesSlugs ∧ "concepts" ∈ autogenDirectories ∧
    (∃ name : String, name ≠ "" ∧ "guides/define-steps" = "guides/" ++ name) ∧
    ∀ rest : String, "guides/define-steps" ≠ "concepts" ++ "/" ++ rest :=
  have hs : "guides/define-steps" ∈ guidesSlugs := by decide
  have hd : "concepts" ∈ autogenDirectories := by decide
  ⟨hs, hd, (navigation_entries_unambiguous.2.2.2.2 _ hs).1,
    (navigation_entries_unambiguous.2.2.2.2 _ hs).2 _ hd⟩

end AstroConfig
